import Mathlib

/-!
Verification of the freighter component-orchestration framework.

This file shallowly embeds the Go sources of the repository:
  * `infra/mctrl/mctrl.go`     — the Ads advertisement map and Status record;
  * `infra/mctrl/kustmctrl.go` — the KustCtrl template-composition/apply engine;
  * `infra/resource`           — ToObject / ToCondition conversions;
  * `ctrls/postgres/postgres.go`, `ctrls/redis/redis.go`, `ctrls/clair` —
    the three concrete components (Status, Advertise, credential secret,
    clair config building).

External collaborators (the kubernetes API client, the embedded manifest
filesystem, the krusty compositor, random password generation) are modelled
as explicit oracles/inputs so that every embedded function is pure and
executable.
-/

/-- Overlay name constant `NotAppliedOverlay = ""` from infra/mctrl/mctrl.go. -/
def NotAppliedOverlay : String := ""

/-- Overlay name constant `BaseOverlay = "base"` from infra/mctrl/mctrl.go. -/
def BaseOverlay : String := "base"

/-- Overlay name constant `ScaleDownOverlay = "scale-down"` from infra/mctrl/mctrl.go. -/
def ScaleDownOverlay : String := "scale-down"

/-- Ads (infra/mctrl/mctrl.go) wraps a Go string-keyed map `dict`. We model the
map as an association list with unique keys; `Put` overwrites in place. The Go
nil map behaves exactly like the empty map for Get/Delete/Contains, so the nil
state is represented by the empty list. -/
structure Ads where
  dict : List (String × String)
deriving Repr, DecidableEq

/-- The zero value of the Go Ads struct (nil dictionary). -/
def Ads.empty : Ads := ⟨[]⟩

/-- Whether index `idx` is present in the map (the `_, ok := a.dict[idx]` test). -/
def Ads.hasKey (a : Ads) (idx : String) : Bool :=
  (a.dict.lookup idx).isSome

/-- Ads.Get: returns the advertised data at index `idx`, or the empty string if
absent (Go map read returns the zero value). -/
def Ads.Get (a : Ads) (idx : String) : String :=
  match a.dict.lookup idx with
  | some v => v
  | none => ""

/-- Ads.Put: advertises `val` at `idx`, overwriting any previous value. -/
def Ads.Put (a : Ads) (idx val : String) : Ads :=
  if a.hasKey idx then
    ⟨a.dict.map (fun p => if p.1 = idx then (idx, val) else p)⟩
  else
    ⟨a.dict ++ [(idx, val)]⟩

/-- Ads.Delete: removes advertised data at `idx`. -/
def Ads.Delete (a : Ads) (idx : String) : Ads :=
  ⟨a.dict.filter (fun p => p.1 ≠ idx)⟩

/-- Ads.Contains: verifies the Ads contains all provided indexes; collects every
missing index (in argument order) and fails with a single message listing them,
`strings.Join(missing, ",") + " indexes not advertised"`. -/
def Ads.Contains (a : Ads) (indexes : List String) : Except String Unit :=
  let missing := indexes.filter (fun idx => !(a.hasKey idx))
  if missing.length > 0 then
    .error (String.intercalate "," missing ++ " indexes not advertised")
  else
    .ok ()

/-- metav1.Condition as used by mctrl.Status (only the fields the JSON
round-trip of ToCondition preserves). -/
structure Condition where
  ctype : String
  cstatus : String
  lastTransitionTime : String
  reason : String
  message : String
deriving Repr, DecidableEq

/-- appsv1.DeploymentCondition: the condition type carried on a Deployment's
status, before translation. -/
structure DeploymentCondition where
  dtype : String
  dstatus : String
  lastUpdateTime : String
  lastTransitionTime : String
  reason : String
  message : String
deriving Repr, DecidableEq

/-- ToCondition (infra/resource): JSON-marshals the input and unmarshals it into
a metav1.Condition. For a DeploymentCondition this round-trip always succeeds:
the shared fields are copied and `lastUpdateTime` is dropped. -/
def ToCondition (c : DeploymentCondition) : Condition :=
  ⟨c.dtype, c.dstatus, c.lastTransitionTime, c.reason, c.message⟩

/-- mctrl.Status: ready verdict, diagnostic message and translated conditions. -/
structure Status where
  Ready : Bool
  Message : String
  Conditions : List Condition
deriving Repr, DecidableEq

/-- metav1.OwnerReference restricted to the fields the readiness engine reads. -/
structure OwnerReference where
  uid : String
  kind : String
deriving Repr, DecidableEq

/-- appsv1.Deployment restricted to the fields the controllers read: UID,
spec.Replicas (nil-able), status.AvailableReplicas, status.UpdatedReplicas and
status.Conditions. Replica counters are int32 in Go; only equality tests are
performed on them, so Int is a faithful carrier. -/
structure Deployment where
  uid : String
  specReplicas : Option Int
  availableReplicas : Int
  updatedReplicas : Int
  conditions : List DeploymentCondition
deriving Repr, DecidableEq

/-- appsv1.ReplicaSet restricted to UID and owner references. -/
structure ReplicaSet where
  uid : String
  ownerReferences : List OwnerReference
deriving Repr, DecidableEq

/-- corev1.Pod restricted to UID and owner references. -/
structure Pod where
  uid : String
  ownerReferences : List OwnerReference
deriving Repr, DecidableEq

/-- Postgres.hasDanglingPods: collects the UIDs of every replica-set in the
namespace owned (owner reference with the deployment's UID and kind
"Deployment") by the deployment, then reports whether any pod in the namespace
has an owner reference of kind "ReplicaSet" whose UID is in that set. The two
List arguments are the namespace-scoped List calls of the Go code. -/
def Postgres.hasDanglingPods (dep : Deployment) (rsets : List ReplicaSet)
    (pods : List Pod) : Bool :=
  let rss : List String :=
    (rsets.filter (fun rs =>
      rs.ownerReferences.any (fun oref =>
        oref.uid == dep.uid && oref.kind == "Deployment"))).map (fun rs => rs.uid)
  pods.any (fun pod =>
    pod.ownerReferences.any (fun oref =>
      rss.contains oref.uid && oref.kind == "ReplicaSet"))

/-- The remote state Postgres.Status reads: the `prefix-database` deployment (none
models a failing Get) plus the namespace's replica-sets and pods. -/
structure PgCluster where
  deployment : Option Deployment
  replicaSets : List ReplicaSet
  pods : List Pod
deriving Repr, DecidableEq

/-- Postgres.Status (ctrls/postgres/postgres.go): errors before any Apply;
on a steady overlay compares spec.Replicas (0 when nil) with
status.AvailableReplicas; on the scale-down overlay runs the dangling-pod
ownership-graph check instead. -/
def Postgres.Status (overlay : String) (cl : PgCluster) : Except String Status :=
  if overlay == NotAppliedOverlay then
    .error "no overlay applied to the controller"
  else
    match cl.deployment with
    | none => .error "unable to get deployment"
    | some dep =>
      let conds := dep.conditions.map ToCondition
      if overlay != ScaleDownOverlay then
        let replicas := dep.specReplicas.getD 0
        if replicas != dep.availableReplicas then
          .ok ⟨false, "deployment not fully available yet", conds⟩
        else
          .ok ⟨true, "deployment available", conds⟩
      else
        if Postgres.hasDanglingPods dep cl.replicaSets cl.pods then
          .ok ⟨false, "deployment scaling down", conds⟩
        else
          .ok ⟨true, "deployment scaled down", conds⟩

/-- Redis.Status (ctrls/redis/redis.go): desired replicas are spec.Replicas
(0 when nil) on steady overlays and 0 on the scale-down overlay; ready iff
status.AvailableReplicas equals that count. The Option argument models the
deployment Get (none = error). -/
def Redis.Status (overlay : String) (deployment : Option Deployment) :
    Except String Status :=
  if overlay == NotAppliedOverlay then
    .error "no overlay applied to the controller"
  else
    match deployment with
    | none => .error "error getting deployment"
    | some dep =>
      let replicas : Int :=
        if overlay != ScaleDownOverlay then dep.specReplicas.getD 0 else 0
      let conds := dep.conditions.map ToCondition
      if dep.availableReplicas != replicas then
        .ok ⟨false, "deployment not fully available yet", conds⟩
      else
        .ok ⟨true, "deployment ready", conds⟩

/-- Clair.Status (ctrls/clair): like Redis.Status but also requires
status.UpdatedReplicas to equal the desired count. -/
def Clair.Status (overlay : String) (deployment : Option Deployment) :
    Except String Status :=
  if overlay == NotAppliedOverlay then
    .error "no overlay applied to the controller"
  else
    match deployment with
    | none => .error "error getting deployment"
    | some dep =>
      let replicas : Int :=
        if overlay != ScaleDownOverlay then dep.specReplicas.getD 0 else 0
      let conds := dep.conditions.map ToCondition
      if dep.availableReplicas != replicas || dep.updatedReplicas != replicas then
        .ok ⟨false, "deployment not fully available yet", conds⟩
      else
        .ok ⟨true, "deployment ready", conds⟩

/-- The postgres access-data secret payload: the `pass` and `rootpass` entries. -/
structure SecretData where
  pass : String
  rootpass : String
deriving Repr, DecidableEq

/-- The remote store as seen by Postgres.ensurePsqlSecretData: the
`prefix-pgsql-access-data` secret, if present, plus injected fault flags for
the Get (an error other than NotFound) and Create calls. -/
structure PgStore where
  secret : Option SecretData
  getFails : Bool
  createFails : Bool
deriving Repr, DecidableEq

/-- Postgres.ensurePsqlSecretData: reads the access-data secret; if present,
returns its stored `pass`/`rootpass` values and leaves the store untouched;
only when the read reports NotFound does it generate two fresh random values
(here passed in as the oracle inputs `freshPass`/`freshRoot`, standing for the
two uuid.New() calls) and create the secret holding them. -/
def Postgres.ensurePsqlSecretData (st : PgStore) (freshPass freshRoot : String) :
    Except String (String × String × PgStore) :=
  if st.getFails then
    .error "error reading pgsql access data"
  else
    match st.secret with
    | some s => .ok (s.pass, s.rootpass, st)
    | none =>
      if st.createFails then
        .error "error creating pgsql secret data"
      else
        .ok (freshPass, freshRoot, { st with secret := some ⟨freshPass, freshRoot⟩ })

/-- Postgres.Advertise: advertises nothing when scaling down or not deployed;
otherwise reads (or first creates) the credential secret and publishes host,
port, user, pass, database name and root credentials. -/
def Postgres.Advertise (overlay pfx ns : String) (st : PgStore)
    (freshPass freshRoot : String) : Except String (Ads × PgStore) :=
  if overlay == ScaleDownOverlay || overlay == NotAppliedOverlay then
    .ok (Ads.empty, st)
  else
    match Postgres.ensurePsqlSecretData st freshPass freshRoot with
    | .error e => .error ("error reading pgsql secret data: " ++ e)
    | .ok (pass, rootpass, st') =>
      let ad := (((((((Ads.empty.Put "dbhost"
        (pfx ++ "-database." ++ ns ++ ".svc")).Put "dbport" "5432").Put
        "dbuser" "user").Put "dbpass" pass).Put "dbname" "database").Put
        "dbrootuser" "postgres").Put "dbrootpass" rootpass)
      .ok (ad, st')

/-- Redis.Advertise: advertises nothing when scaling down or not deployed;
otherwise publishes the service address and port. Never errors. -/
def Redis.Advertise (overlay pfx ns : String) : Except String Ads :=
  if overlay == ScaleDownOverlay || overlay == NotAppliedOverlay then
    .ok Ads.empty
  else
    .ok ((Ads.empty.Put "address" (pfx ++ "-redis." ++ ns ++ ".svc")).Put
      "port" "6379")

/-- Clair.Advertise: short-circuits only on the scale-down overlay; on any
other overlay — the not-applied overlay included — it advertises the clair
address. Never errors. -/
def Clair.Advertise (overlay pfx ns : String) : Except String Ads :=
  if overlay == ScaleDownOverlay then
    .ok Ads.empty
  else
    .ok (Ads.empty.Put "clair-addr" (pfx ++ "-clair." ++ ns))

/-- kustomize Gvk: group/version/kind discriminator of a rendered resource. -/
structure Gvk where
  group : String
  version : String
  kind : String
deriving Repr, DecidableEq

/-- The kind/version pairs the ToObject switch (infra/resource) can decode. -/
def mappedGvks : List Gvk :=
  [⟨"", "v1", "Secret"⟩,
   ⟨"", "v1", "Service"⟩,
   ⟨"", "v1", "ServiceAccount"⟩,
   ⟨"", "v1", "PersistentVolumeClaim"⟩,
   ⟨"apps", "v1", "Deployment"⟩,
   ⟨"autoscaling", "v2beta2", "HorizontalPodAutoscaler"⟩]

/-- resource.Resource: an abstract rendered object produced by the compositor,
restricted to the structural view the engine reads (gvk discriminator plus the
generic object metadata the object-level mutators touch). -/
structure Resource where
  gvk : Gvk
  name : String
  ns : String
  ownerReferences : List OwnerReference
deriving Repr, DecidableEq

/-- client.Object: the typed in-memory form of a rendered resource, restricted
to the same structural view. -/
structure KObject where
  gvk : Gvk
  name : String
  ns : String
  ownerReferences : List OwnerReference
deriving Repr, DecidableEq

/-- ToObject (infra/resource): resolves a rendered resource into its typed form
by kind/version; an unmapped kind/version pair is a hard error. The JSON
round-trip for a mapped pair carries the structural fields over. -/
def ToObject (res : Resource) : Except String KObject :=
  if mappedGvks.contains res.gvk then
    .ok ⟨res.gvk, res.name, res.ns, res.ownerReferences⟩
  else
    .error ("unmapped type " ++ res.gvk.group ++ " " ++ res.gvk.version ++ " "
      ++ res.gvk.kind)

/-- kustomize SecretArgs restricted to the fields the controllers set. -/
structure SecretArgs where
  name : String
  literalSources : List String
deriving Repr, DecidableEq

/-- types.Kustomization restricted to the fields the template-level mutators
of this repository write: NamePrefix and SecretGenerator. -/
structure Kustomization where
  namePfx : String
  secretGenerator : List SecretArgs
deriving Repr, DecidableEq

/-- A template-level mutator: Go `func(ctx, *types.Kustomization, Ads) error`,
modelled as a pure state transformer that may fail. -/
def KMutator : Type := Kustomization → Ads → Except String Kustomization

/-- An object-level mutator: Go `func(ctx, client.Object) error`, modelled as a
pure state transformer that may fail. -/
def OMutator : Type := KObject → Except String KObject

/-- KustCtrl (infra/mctrl/kustmctrl.go): current overlay plus the two ordered
mutator registration lists. The kubernetes client and embedded filesystem live
in KustEnv. -/
structure KustCtrl where
  overlay : String
  KMutators : List KMutator
  OMutators : List OMutator

/-- Outcomes of KustCtrl's external collaborators: fsloader.Load, the read+
decode of the base kustomization file, the krusty compositor run (its Option
argument is the mutated base kustomization written back into the virtual
filesystem, none when no mutator ran and the file was left untouched), and the
API-server Patch upsert. -/
structure KustEnv where
  load : Except String Unit
  baseKust : Except String Kustomization
  compose : Option Kustomization → String → Except String (List Resource)
  patch : KObject → Except String Unit

/-- NewKustCtrl: fresh controller; the Go zero value of the overlay field is
the empty string. -/
def NewKustCtrl : KustCtrl :=
  { overlay := "", KMutators := [], OMutators := [] }

/-- KustCtrl.Overlay: returns the last applied overlay. -/
def KustCtrl.Overlay (k : KustCtrl) : String := k.overlay

/-- The KMutators loop of KustCtrl.mutateKustomization: feeds each registered
template-level mutator, in registration order, with the current kustomization;
the first failure is wrapped and aborts the rest. -/
def runKMutators : List KMutator → Kustomization → Ads → Except String Kustomization
  | [], kust, _ => .ok kust
  | m :: rest, kust, ads =>
    match m kust ads with
    | .error e => .error ("error mutating kustomization: " ++ e)
    | .ok kust' => runKMutators rest kust' ads

/-- KustCtrl.mutateKustomization: with no registered KMutators the virtual
filesystem is left untouched (result none); otherwise the base kustomization
file is read and decoded, every KMutator runs in order, and the result is
re-encoded at the original path (result some). -/
def KustCtrl.mutateKustomization (k : KustCtrl) (env : KustEnv) (ads : Ads) :
    Except String (Option Kustomization) :=
  if k.KMutators.isEmpty then
    .ok none
  else
    match env.baseKust with
    | .error e => .error e
    | .ok kust =>
      match runKMutators k.KMutators kust ads with
      | .error e => .error e
      | .ok kust' => .ok (some kust')

/-- The resource-decoding loop of KustCtrl.parse: converts every rendered
resource via ToObject, in order; the first failure is wrapped and aborts. -/
def mapToObjects : List Resource → Except String (List KObject)
  | [] => .ok []
  | res :: rest =>
    match ToObject res with
    | .error e => .error ("error parsing object: " ++ e)
    | .ok obj =>
      match mapToObjects rest with
      | .error e => .error e
      | .ok objs => .ok (obj :: objs)

/-- KustCtrl.parse: loads the embedded files, mutates the base kustomization,
runs the compositor against the requested overlay directory, and decodes each
rendered resource into its typed form. -/
def KustCtrl.parse (k : KustCtrl) (env : KustEnv) (overlay : String) (ads : Ads) :
    Except String (List KObject) :=
  match env.load with
  | .error e => .error ("unable to load overlay: " ++ e)
  | .ok _ =>
    match k.mutateKustomization env ads with
    | .error e => .error ("error setting object name prefix: " ++ e)
    | .ok mkust =>
      match env.compose mkust overlay with
      | .error e => .error ("error running kustomize: " ++ e)
      | .ok ress => mapToObjects ress

/-- The OMutators loop of KustCtrl.Apply: feeds each registered object-level
mutator, in registration order, with the current object; the first failure is
wrapped and aborts the rest. -/
def runOMutators : List OMutator → KObject → Except String KObject
  | [], obj => .ok obj
  | m :: rest, obj =>
    match m obj with
    | .error e => .error ("error mutating object: " ++ e)
    | .ok obj' => runOMutators rest obj'

/-- One iteration of KustCtrl.Apply's object loop: run every object-level
mutator, then submit the mutated object. Returns the submitted form. -/
def processObj (muts : List OMutator) (patch : KObject → Except String Unit)
    (obj : KObject) : Except String KObject :=
  match runOMutators muts obj with
  | .error e => .error e
  | .ok obj' =>
    match patch obj' with
    | .error e => .error ("error patching object: " ++ e)
    | .ok _ => .ok obj'

/-- The object loop of KustCtrl.Apply: mutate and submit each object in order,
accumulating the successfully submitted objects; the first failure returns
immediately, keeping what was already submitted (no rollback). -/
def applyObjs (muts : List OMutator) (patch : KObject → Except String Unit) :
    List KObject → List KObject → List KObject × Option String
  | [], submitted => (submitted, none)
  | obj :: rest, submitted =>
    match runOMutators muts obj with
    | .error e => (submitted, some e)
    | .ok obj' =>
      match patch obj' with
      | .error e => (submitted, some ("error patching object: " ++ e))
      | .ok _ => applyObjs muts patch rest (submitted ++ [obj'])

/-- KustCtrl.Apply: parse the overlay into typed objects, then mutate and
submit each one; only after every object was submitted is the overlay recorded
as the controller's current overlay. The result carries the updated
controller, the objects submitted during this call (in submission order), and
the failure, if any. -/
def KustCtrl.Apply (k : KustCtrl) (env : KustEnv) (overlay : String) (ads : Ads) :
    KustCtrl × List KObject × Option String :=
  match k.parse env overlay ads with
  | .error e => (k, [], some ("error parsing kustomize files: " ++ e))
  | .ok objs =>
    match applyObjs k.OMutators env.patch objs [] with
    | (submitted, some e) => (k, submitted, some e)
    | (submitted, none) => ({ k with overlay := overlay }, submitted, none)

/-- The advertised keys Clair.buildClairConfig requires. -/
def clairNeeded : List String :=
  ["dbhost", "dbport", "dbname", "dbrootuser", "dbrootpass"]

/-- Clair's Config restricted to the fields buildClairConfig writes: the three
agent connection strings. -/
structure ClairConfig where
  indexerConnString : String
  matcherConnString : String
  notifierConnString : String
deriving Repr, DecidableEq

/-- Clair.buildClairConfig: verifies all mandatory advertised data is present,
parses the static default config (the Except argument stands for EmptyConfig's
read of the embedded default file), and points all three agents at the
advertised database with one connection string. -/
def Clair.buildClairConfig (emptyConfig : Except String ClairConfig) (ads : Ads) :
    Except String ClairConfig :=
  match ads.Contains clairNeeded with
  | .error e => .error ("missing advertised data: " ++ e)
  | .ok _ =>
    match emptyConfig with
    | .error e => .error ("unable to process default config: " ++ e)
    | .ok config =>
      let connstr := "host=" ++ ads.Get "dbhost" ++ " port=" ++ ads.Get "dbport"
        ++ " dbname=" ++ ads.Get "dbname" ++ " user=" ++ ads.Get "dbrootuser"
        ++ " password=" ++ ads.Get "dbrootpass" ++ " sslmode=disable"
      .ok { config with
            indexerConnString := connstr
            matcherConnString := connstr
            notifierConnString := connstr }

/-- yaml.Marshal of the (restricted) clair Config. -/
def marshalClairConfig (c : ClairConfig) : String :=
  "indexer:\n  connstring: " ++ c.indexerConnString ++ "\nmatcher:\n  connstring: "
    ++ c.matcherConnString ++ "\nnotifier:\n  connstring: "
    ++ c.notifierConnString ++ "\n"

/-- Clair.mutateKustomization: builds the clair config from the received Ads
(failing when mandatory advertised data is missing), then sets the name
prefix and a secret generator holding the marshalled config. -/
def Clair.mutateKustomization (pfx : String)
    (emptyConfig : Except String ClairConfig) : KMutator := fun kust ads =>
  match Clair.buildClairConfig emptyConfig ads with
  | .error e => .error ("unable to build clair config: " ++ e)
  | .ok config =>
    .ok { kust with
          namePfx := pfx ++ "-"
          secretGenerator :=
            [⟨"clair-config", ["config.yaml=" ++ marshalClairConfig config]⟩] }

/-- The two-hop ownership-graph membership test as the specification words it:
some pod in the namespace has an owner reference of kind "ReplicaSet" whose
UID is among the UIDs of the replica-sets in the namespace that carry an owner
reference with the workload deployment's UID and kind "Deployment". -/
def danglingPodExists (dep : Deployment) (rsets : List ReplicaSet)
    (pods : List Pod) : Prop :=
  ∃ pod ∈ pods, ∃ oref ∈ pod.ownerReferences, oref.kind = "ReplicaSet" ∧
    ∃ rs ∈ rsets, rs.uid = oref.uid ∧
      ∃ o2 ∈ rs.ownerReferences, o2.uid = dep.uid ∧ o2.kind = "Deployment"

instance (dep : Deployment) (rsets : List ReplicaSet) (pods : List Pod) :
    Decidable (danglingPodExists dep rsets pods) := by
  unfold danglingPodExists; infer_instance

/-- The Boolean check of the code coincides with the two-hop membership test. -/
theorem hasDanglingPods_iff (dep : Deployment) (rsets : List ReplicaSet)
    (pods : List Pod) :
    Postgres.hasDanglingPods dep rsets pods = true ↔
      danglingPodExists dep rsets pods := by
  simp only [Postgres.hasDanglingPods, danglingPodExists, List.any_eq_true,
    Bool.and_eq_true, beq_iff_eq, List.elem_iff, List.mem_map, List.mem_filter]
  constructor
  · rintro ⟨pod, hpod, oref, horef, ⟨rs, ⟨hrs, hown⟩, huid⟩, hkind⟩
    obtain ⟨o2, ho2, h1, h2⟩ := hown
    exact ⟨pod, hpod, oref, horef, hkind, rs, hrs, huid, o2, ho2, h1, h2⟩
  · rintro ⟨pod, hpod, oref, horef, hkind, rs, hrs, huid, o2, ho2, h1, h2⟩
    exact ⟨pod, hpod, oref, horef, ⟨rs, ⟨hrs, o2, ho2, h1, h2⟩, huid⟩, hkind⟩

/-- C1: for the database component with current overlay "scale-down", Status
reports ready=false with message "deployment scaling down" iff some pod in the
namespace has an owner reference of kind "ReplicaSet" whose UID belongs to the
set of replica-sets owned (owner reference with the workload's UID and kind
"Deployment") by the workload; when no such pod exists it reports ready=true
with message "deployment scaled down". -/
theorem postgres_scaledown_status_iff_dangling (dep : Deployment)
    (rsets : List ReplicaSet) (pods : List Pod) (s : Status)
    (h : Postgres.Status ScaleDownOverlay ⟨some dep, rsets, pods⟩ = .ok s) :
    ((s.Ready = false ∧ s.Message = "deployment scaling down") ↔
      danglingPodExists dep rsets pods) ∧
    (¬ danglingPodExists dep rsets pods →
      s.Ready = true ∧ s.Message = "deployment scaled down") := by
  unfold Postgres.Status at h
  simp only [show (ScaleDownOverlay == NotAppliedOverlay) = false from by decide,
    show (ScaleDownOverlay != ScaleDownOverlay) = false from by decide,
    Bool.false_eq_true, if_false] at h
  by_cases hd : Postgres.hasDanglingPods dep rsets pods
  · rw [if_pos hd] at h
    injection h with h'
    subst h'
    constructor
    · exact iff_of_true ⟨rfl, rfl⟩ ((hasDanglingPods_iff dep rsets pods).mp hd)
    · intro hn
      exact absurd ((hasDanglingPods_iff dep rsets pods).mp hd) hn
  · rw [if_neg hd] at h
    injection h with h'
    subst h'
    constructor
    · refine iff_of_false (fun hc => ?_) fun hc => ?_
      · exact Bool.noConfusion hc.1
      · exact hd ((hasDanglingPods_iff dep rsets pods).mpr hc)
    · intro _
      exact ⟨rfl, rfl⟩

/-- Concrete scale-down scenario for the database component: a deployment with
one owned replica-set that still owns one pod. -/
def depEx : Deployment := ⟨"uid-dep", some 0, 0, 0, []⟩

/-- Replica-sets of the concrete scenario: one owned by the deployment, one
owned by an unrelated workload. -/
def rsetsEx : List ReplicaSet :=
  [⟨"uid-rs", [⟨"uid-dep", "Deployment"⟩]⟩, ⟨"uid-other", [⟨"uid-x", "Deployment"⟩]⟩]

/-- Pods of the concrete scenario: one still owned by the owned replica-set. -/
def podsEx : List Pod := [⟨"uid-pod", [⟨"uid-rs", "ReplicaSet"⟩]⟩]

theorem postgres_scaledown_status_iff_dangling_witness :
    Postgres.Status ScaleDownOverlay ⟨some depEx, rsetsEx, podsEx⟩ =
      .ok ⟨false, "deployment scaling down", []⟩ ∧
    ((((⟨false, "deployment scaling down", []⟩ : Status).Ready = false ∧
        (⟨false, "deployment scaling down", []⟩ : Status).Message =
          "deployment scaling down") ↔
      danglingPodExists depEx rsetsEx podsEx) ∧
    (¬ danglingPodExists depEx rsetsEx podsEx →
      (⟨false, "deployment scaling down", []⟩ : Status).Ready = true ∧
        (⟨false, "deployment scaling down", []⟩ : Status).Message =
          "deployment scaled down")) :=
  ⟨rfl,
   postgres_scaledown_status_iff_dangling depEx rsetsEx podsEx
     ⟨false, "deployment scaling down", []⟩ rfl⟩

/-- C2: on a steady-state overlay (neither the not-applied overlay nor
"scale-down") every component reports ready=true iff the deployment's observed
available-replica count (and, for the clair scanning component, also its
updated-replica count) equals spec.Replicas (0 when nil); otherwise it reports
ready=false with message "deployment not fully available yet". -/
theorem steady_state_readiness (ov : String) (dep : Deployment)
    (h1 : ov ≠ NotAppliedOverlay) (h2 : ov ≠ ScaleDownOverlay) :
    (∀ (rsets : List ReplicaSet) (pods : List Pod) (s : Status),
      Postgres.Status ov ⟨some dep, rsets, pods⟩ = .ok s →
      (s.Ready = true ↔ dep.specReplicas.getD 0 = dep.availableReplicas) ∧
      (s.Ready = false → s.Message = "deployment not fully available yet")) ∧
    (∀ s : Status, Redis.Status ov (some dep) = .ok s →
      (s.Ready = true ↔ dep.availableReplicas = dep.specReplicas.getD 0) ∧
      (s.Ready = false → s.Message = "deployment not fully available yet")) ∧
    (∀ s : Status, Clair.Status ov (some dep) = .ok s →
      (s.Ready = true ↔ (dep.availableReplicas = dep.specReplicas.getD 0 ∧
        dep.updatedReplicas = dep.specReplicas.getD 0)) ∧
      (s.Ready = false → s.Message = "deployment not fully available yet")) := by
  have hb1 : (ov == NotAppliedOverlay) = false := beq_eq_false_iff_ne.mpr h1
  have hb2 : (ov != ScaleDownOverlay) = true := bne_iff_ne.mpr h2
  refine ⟨?_, ?_, ?_⟩
  · intro rsets pods s h
    unfold Postgres.Status at h
    simp only [hb1, hb2, Bool.false_eq_true, if_false, if_true] at h
    split at h
    case isTrue hne =>
      rw [bne_iff_ne] at hne
      injection h with h'
      subst h'
      exact ⟨by simp [hne], fun _ => rfl⟩
    case isFalse hne =>
      rw [bne_iff_ne, not_not] at hne
      injection h with h'
      subst h'
      exact ⟨by simp [hne], by simp⟩
  · intro s h
    unfold Redis.Status at h
    simp only [hb1, hb2, Bool.false_eq_true, if_false, if_true] at h
    split at h
    case isTrue hne =>
      rw [bne_iff_ne] at hne
      injection h with h'
      subst h'
      exact ⟨by simp [hne], fun _ => rfl⟩
    case isFalse hne =>
      rw [bne_iff_ne, not_not] at hne
      injection h with h'
      subst h'
      exact ⟨by simp [hne], by simp⟩
  · intro s h
    unfold Clair.Status at h
    simp only [hb1, hb2, Bool.false_eq_true, if_false, if_true] at h
    split at h
    case isTrue hne =>
      simp only [Bool.or_eq_true, bne_iff_ne] at hne
      injection h with h'
      subst h'
      refine ⟨by simp; intro ha hu; rcases hne with hc | hc <;> exact hc (by simp [ha, hu]),
        fun _ => rfl⟩
    case isFalse hne =>
      simp only [Bool.or_eq_true, bne_iff_ne, not_or, not_not] at hne
      injection h with h'
      subst h'
      exact ⟨by simp [hne.1, hne.2], by simp⟩

theorem steady_state_readiness_witness :
    BaseOverlay ≠ NotAppliedOverlay ∧ BaseOverlay ≠ ScaleDownOverlay ∧
    Postgres.Status BaseOverlay ⟨some depEx, [], []⟩ =
      .ok ⟨true, "deployment available", []⟩ ∧
    (((⟨true, "deployment available", []⟩ : Status).Ready = true ↔
      depEx.specReplicas.getD 0 = depEx.availableReplicas)) := by
  refine ⟨by decide, by decide, rfl, ?_⟩
  exact ((steady_state_readiness BaseOverlay depEx (by decide) (by decide)).1
    [] [] ⟨true, "deployment available", []⟩ rfl).1

/-- C10: under the "scale-down" overlay the cache and scanning components do no
ownership-graph pod check (their Status reads only the deployment); the desired
replica count is treated as 0, so redis is ready iff AvailableReplicas = 0 and
clair iff AvailableReplicas = 0 and UpdatedReplicas = 0, with the generic
messages rather than the scaling-down/scaled-down ones. -/
theorem redis_clair_scaledown_status (dep : Deployment) :
    (∀ s : Status, Redis.Status ScaleDownOverlay (some dep) = .ok s →
      (s.Ready = true ↔ dep.availableReplicas = 0) ∧
      (s.Ready = true → s.Message = "deployment ready") ∧
      (s.Ready = false → s.Message = "deployment not fully available yet")) ∧
    (∀ s : Status, Clair.Status ScaleDownOverlay (some dep) = .ok s →
      (s.Ready = true ↔ (dep.availableReplicas = 0 ∧ dep.updatedReplicas = 0)) ∧
      (s.Ready = true → s.Message = "deployment ready") ∧
      (s.Ready = false → s.Message = "deployment not fully available yet")) := by
  constructor
  · intro s h
    unfold Redis.Status at h
    simp only [show (ScaleDownOverlay == NotAppliedOverlay) = false from by decide,
      show (ScaleDownOverlay != ScaleDownOverlay) = false from by decide,
      Bool.false_eq_true, if_false] at h
    split at h
    case isTrue hne =>
      rw [bne_iff_ne] at hne
      injection h with h'
      subst h'
      exact ⟨by simp [hne], by simp, fun _ => rfl⟩
    case isFalse hne =>
      rw [bne_iff_ne, not_not] at hne
      injection h with h'
      subst h'
      exact ⟨by simp [hne], fun _ => rfl, by simp⟩
  · intro s h
    unfold Clair.Status at h
    simp only [show (ScaleDownOverlay == NotAppliedOverlay) = false from by decide,
      show (ScaleDownOverlay != ScaleDownOverlay) = false from by decide,
      Bool.false_eq_true, if_false] at h
    split at h
    case isTrue hne =>
      simp only [Bool.or_eq_true, bne_iff_ne] at hne
      injection h with h'
      subst h'
      refine ⟨by simp; intro ha hu; rcases hne with hc | hc <;> exact hc (by simp [ha, hu]),
        by simp, fun _ => rfl⟩
    case isFalse hne =>
      simp only [Bool.or_eq_true, bne_iff_ne, not_or, not_not] at hne
      injection h with h'
      subst h'
      exact ⟨by simp [hne.1, hne.2], fun _ => rfl, by simp⟩

theorem redis_clair_scaledown_status_witness :
    Redis.Status ScaleDownOverlay (some depEx) = .ok ⟨true, "deployment ready", []⟩ ∧
    (((⟨true, "deployment ready", []⟩ : Status).Ready = true ↔
      depEx.availableReplicas = 0)) := by
  refine ⟨rfl, ?_⟩
  exact ((redis_clair_scaledown_status depEx).1
    ⟨true, "deployment ready", []⟩ rfl).1

/-- C3: the database credential secret is created at most once per component
instance. The routine first reads the secret: if present, the stored pass and
rootpass are returned verbatim and the store is untouched; only when absent
are the two fresh random values persisted, and from then on every further
credential read — and every Advertise on a deployed steady overlay — returns
exactly the values created the first time. -/
theorem postgres_credential_created_once (st : PgStore) (f1 f2 : String)
    (hget : st.getFails = false) :
    (∀ s : SecretData, st.secret = some s →
      Postgres.ensurePsqlSecretData st f1 f2 = .ok (s.pass, s.rootpass, st)) ∧
    (st.secret = none → st.createFails = false →
      Postgres.ensurePsqlSecretData st f1 f2 =
        .ok (f1, f2, { st with secret := some ⟨f1, f2⟩ }) ∧
      (∀ g1 g2 : String,
        Postgres.ensurePsqlSecretData { st with secret := some ⟨f1, f2⟩ } g1 g2 =
          .ok (f1, f2, { st with secret := some ⟨f1, f2⟩ })) ∧
      (∀ ov pfx ns g1 g2 : String, ov ≠ ScaleDownOverlay → ov ≠ NotAppliedOverlay →
        ∃ a : Ads,
          Postgres.Advertise ov pfx ns { st with secret := some ⟨f1, f2⟩ } g1 g2 =
            .ok (a, { st with secret := some ⟨f1, f2⟩ }) ∧
          a.Get "dbpass" = f1 ∧ a.Get "dbrootpass" = f2)) := by
  constructor
  · intro s hs
    simp [Postgres.ensurePsqlSecretData, hget, hs]
  · intro hn hc
    refine ⟨by simp [Postgres.ensurePsqlSecretData, hget, hn, hc], ?_, ?_⟩
    · intro g1 g2
      simp [Postgres.ensurePsqlSecretData, hget]
    · intro ov pfx ns g1 g2 hsd hna
      have hb : (ov == ScaleDownOverlay || ov == NotAppliedOverlay) = false := by
        simp [beq_eq_false_iff_ne.mpr hsd, beq_eq_false_iff_ne.mpr hna]
      refine ⟨(((((((Ads.empty.Put "dbhost" (pfx ++ "-database." ++ ns ++ ".svc")).Put
          "dbport" "5432").Put "dbuser" "user").Put "dbpass" f1).Put "dbname"
          "database").Put "dbrootuser" "postgres").Put "dbrootpass" f2), ?_, ?_, ?_⟩
      · simp [Postgres.Advertise, hb, Postgres.ensurePsqlSecretData, hget]
      · simp [Ads.Get, Ads.Put, Ads.hasKey, Ads.empty, List.lookup]
      · simp [Ads.Get, Ads.Put, Ads.hasKey, Ads.empty, List.lookup]

theorem postgres_credential_created_once_witness :
    (PgStore.mk none false false).getFails = false ∧
    Postgres.ensurePsqlSecretData ⟨none, false, false⟩ "pw" "rootpw" =
      .ok ("pw", "rootpw", ⟨some ⟨"pw", "rootpw"⟩, false, false⟩) ∧
    Postgres.ensurePsqlSecretData ⟨some ⟨"pw", "rootpw"⟩, false, false⟩ "other" "vals" =
      .ok ("pw", "rootpw", ⟨some ⟨"pw", "rootpw"⟩, false, false⟩) := by
  refine ⟨rfl, ?_, ?_⟩
  · exact ((postgres_credential_created_once ⟨none, false, false⟩ "pw" "rootpw" rfl).2
      rfl rfl).1
  · exact ((postgres_credential_created_once ⟨none, false, false⟩ "pw" "rootpw" rfl).2
      rfl rfl).2.1 "other" "vals"

/-- C5 counterexample: Clair.Advertise on the not-applied overlay "" does not
return an empty Ads — it advertises the clair address, refuting the claim that
every component returns an empty Ads there. -/
theorem clair_advertise_notapplied_counterexample :
    Clair.Advertise NotAppliedOverlay "undefined" "default" ≠ .ok Ads.empty ∧
    Clair.Advertise NotAppliedOverlay "undefined" "default" =
      .ok (Ads.empty.Put "clair-addr" "undefined-clair.default") := by
  constructor
  · intro h
    simp [Clair.Advertise, Ads.Put, Ads.empty, Ads.hasKey, NotAppliedOverlay,
      ScaleDownOverlay] at h
  · rfl

/-- C5 (amended): Postgres and Redis Advertise return an empty Ads and no
error on both the scale-down and the not-applied overlay; Clair.Advertise does
so only on the scale-down overlay — on the not-applied overlay it returns,
still without error, an Ads holding only the clair address. -/
theorem advertise_scaledown_notapplied (pfx ns : String) (st : PgStore)
    (f1 f2 : String) :
    Postgres.Advertise ScaleDownOverlay pfx ns st f1 f2 = .ok (Ads.empty, st) ∧
    Postgres.Advertise NotAppliedOverlay pfx ns st f1 f2 = .ok (Ads.empty, st) ∧
    Redis.Advertise ScaleDownOverlay pfx ns = .ok Ads.empty ∧
    Redis.Advertise NotAppliedOverlay pfx ns = .ok Ads.empty ∧
    Clair.Advertise ScaleDownOverlay pfx ns = .ok Ads.empty ∧
    Clair.Advertise NotAppliedOverlay pfx ns =
      .ok (Ads.empty.Put "clair-addr" (pfx ++ "-clair." ++ ns)) :=
  ⟨rfl, rfl, rfl, rfl, rfl, rfl⟩

/-- C6 counterexample: Redis.Advertise called before any successful Apply
(current overlay "") succeeds with an empty Ads instead of failing with a
"no overlay applied" error. -/
theorem redis_advertise_notapplied_counterexample :
    Redis.Advertise NotAppliedOverlay "undefined" "default" = .ok Ads.empty :=
  rfl

/-- C6 (amended): Status of every component called before any successful Apply
fails with the "no overlay applied" error, but Advertise does not fail there:
Postgres and Redis return an empty Ads without error and Clair returns its
address advertisement without error. -/
theorem notapplied_status_fails_advertise_succeeds (cl : PgCluster)
    (d : Option Deployment) (pfx ns : String) (st : PgStore) (f1 f2 : String) :
    Postgres.Status NotAppliedOverlay cl =
      .error "no overlay applied to the controller" ∧
    Redis.Status NotAppliedOverlay d =
      .error "no overlay applied to the controller" ∧
    Clair.Status NotAppliedOverlay d =
      .error "no overlay applied to the controller" ∧
    Postgres.Advertise NotAppliedOverlay pfx ns st f1 f2 = .ok (Ads.empty, st) ∧
    Redis.Advertise NotAppliedOverlay pfx ns = .ok Ads.empty ∧
    (∃ a : Ads, Clair.Advertise NotAppliedOverlay pfx ns = .ok a) :=
  ⟨rfl, rfl, rfl, rfl, rfl, ⟨Ads.empty.Put "clair-addr" (pfx ++ "-clair." ++ ns), rfl⟩⟩

/-- C7: a component's current overlay is "" until the first successful Apply;
a fully successful Apply records the requested overlay as its last step, and
every failing Apply (load, mutation, composition, decoding or submission
failure) leaves the current overlay unchanged. -/
theorem overlay_set_only_on_success :
    NewKustCtrl.Overlay = NotAppliedOverlay ∧
    ∀ (k : KustCtrl) (env : KustEnv) (ov : String) (ads : Ads),
      ((k.Apply env ov ads).2.2.isSome = true →
        (k.Apply env ov ads).1.Overlay = k.Overlay) ∧
      ((k.Apply env ov ads).2.2 = none → (k.Apply env ov ads).1.Overlay = ov) := by
  refine ⟨rfl, fun k env ov ads => ?_⟩
  rcases hp : k.parse env ov ads with e | objs
  · constructor
    · intro _
      simp [KustCtrl.Apply, KustCtrl.Overlay, hp]
    · intro hc
      simp [KustCtrl.Apply, hp] at hc
  · rcases ha : applyObjs k.OMutators env.patch objs [] with ⟨submitted, _ | e⟩
    · constructor
      · intro hc
        simp [KustCtrl.Apply, hp, ha] at hc
      · intro _
        simp [KustCtrl.Apply, KustCtrl.Overlay, hp, ha]
    · constructor
      · intro _
        simp [KustCtrl.Apply, KustCtrl.Overlay, hp, ha]
      · intro hc
        simp [KustCtrl.Apply, hp, ha] at hc

/-- A benign environment: loading succeeds, the base kustomization decodes,
the compositor renders no resources, every submission succeeds. -/
def envOk : KustEnv :=
  { load := .ok ()
    baseKust := .ok ⟨"", []⟩
    compose := fun _ _ => .ok []
    patch := fun _ => .ok () }

theorem overlay_set_only_on_success_witness :
    NewKustCtrl.Overlay = NotAppliedOverlay ∧
    (NewKustCtrl.Apply envOk BaseOverlay Ads.empty).2.2 = none ∧
    (NewKustCtrl.Apply envOk BaseOverlay Ads.empty).1.Overlay = BaseOverlay :=
  ⟨overlay_set_only_on_success.1, rfl,
   (overlay_set_only_on_success.2 NewKustCtrl envOk BaseOverlay Ads.empty).2 rfl⟩

/-- Helper for C8: if every object of `pre` processes (mutates and submits)
successfully and `obj` fails, the object loop stops at `obj`: it returns the
accumulated submissions extended by exactly the processed `pre` — whatever
follows `obj` is never touched — together with a failure. -/
theorem applyObjs_fail_after_prefix (muts : List OMutator)
    (patch : KObject → Except String Unit) (pre : List KObject) (obj : KObject)
    (post : List KObject) (acc : List KObject)
    (hpre : ∀ o ∈ pre, (processObj muts patch o).isOk = true)
    (hbad : (processObj muts patch obj).isOk = false) :
    (applyObjs muts patch (pre ++ obj :: post) acc).1 =
      acc ++ pre.filterMap (fun o => (processObj muts patch o).toOption) ∧
    (applyObjs muts patch (pre ++ obj :: post) acc).2.isSome = true := by
  induction pre generalizing acc with
  | nil =>
    simp only [List.nil_append, List.filterMap_nil, List.append_nil]
    rcases hm : runOMutators muts obj with e | obj'
    · constructor <;> simp [applyObjs, hm]
    · rcases hpt : patch obj' with e | u
      · constructor <;> simp [applyObjs, hm, hpt]
      · exfalso
        simp only [processObj, hm, hpt, Except.isOk, Except.toBool] at hbad
        exact Bool.noConfusion hbad
  | cons o pre ih =>
    have ho := hpre o (by simp)
    rcases hm : runOMutators muts o with e | o'
    · exfalso
      simp only [processObj, hm, Except.isOk, Except.toBool] at ho
      exact Bool.noConfusion ho
    · rcases hpt : patch o' with e | u
      · exfalso
        simp only [processObj, hm, hpt, Except.isOk, Except.toBool] at ho
        exact Bool.noConfusion ho
      · have hproc : processObj muts patch o = .ok o' := by
          simp only [processObj, hm, hpt]
        have hrec := ih (acc ++ [o']) (fun x hx => hpre x (List.mem_cons_of_mem _ hx))
        constructor
        · simp only [List.cons_append, applyObjs, hm, hpt, List.append_eq]
          rw [hrec.1]
          simp [hproc, Except.toOption, List.filterMap_cons]
        · simp only [List.cons_append, applyObjs, hm, hpt, List.append_eq]
          exact hrec.2

/-- C8: template-level and object-level mutators run in registration order —
each pipeline processes its head first and the first failure aborts the rest —
and when processing an object fails mid-Apply the whole Apply fails while the
objects already submitted earlier in the same call stay applied and the
remaining objects are never reached (no rollback). -/
theorem mutator_order_and_no_rollback :
    (∀ (m : KMutator) (rest : List KMutator) (kust : Kustomization) (ads : Ads),
      runKMutators (m :: rest) kust ads =
        match m kust ads with
        | .error e => .error ("error mutating kustomization: " ++ e)
        | .ok kust' => runKMutators rest kust' ads) ∧
    (∀ (m : OMutator) (rest : List OMutator) (obj : KObject),
      runOMutators (m :: rest) obj =
        match m obj with
        | .error e => .error ("error mutating object: " ++ e)
        | .ok obj' => runOMutators rest obj') ∧
    (∀ (k : KustCtrl) (env : KustEnv) (ov : String) (ads : Ads)
      (pre : List KObject) (obj : KObject) (post : List KObject),
      k.parse env ov ads = .ok (pre ++ obj :: post) →
      (∀ o ∈ pre, (processObj k.OMutators env.patch o).isOk = true) →
      (processObj k.OMutators env.patch obj).isOk = false →
      (k.Apply env ov ads).1 = k ∧
      (k.Apply env ov ads).2.1 =
        pre.filterMap (fun o => (processObj k.OMutators env.patch o).toOption) ∧
      (k.Apply env ov ads).2.2.isSome = true) := by
  refine ⟨fun m rest kust ads => rfl, fun m rest obj => rfl, ?_⟩
  intro k env ov ads pre obj post hp hpre hbad
  have h := applyObjs_fail_after_prefix k.OMutators env.patch pre obj post [] hpre hbad
  rcases ha : applyObjs k.OMutators env.patch (pre ++ obj :: post) [] with ⟨submitted, err⟩
  rw [ha] at h
  rcases err with _ | e
  · exact absurd h.2 (by simp)
  · have hsub : submitted =
        pre.filterMap (fun o => (processObj k.OMutators env.patch o).toOption) := by
      simpa using h.1
    exact ⟨by simp [KustCtrl.Apply, hp, ha], by simp [KustCtrl.Apply, hp, ha, hsub],
      by simp [KustCtrl.Apply, hp, ha]⟩

/-- Rendered service resource used in the concrete two-object scenario. -/
def resA : Resource := ⟨⟨"", "v1", "Service"⟩, "a", "default", []⟩

/-- Rendered secret resource used in the concrete two-object scenario. -/
def resB : Resource := ⟨⟨"", "v1", "Secret"⟩, "b", "default", []⟩

/-- Typed form of resA. -/
def objA : KObject := ⟨⟨"", "v1", "Service"⟩, "a", "default", []⟩

/-- Typed form of resB. -/
def objB : KObject := ⟨⟨"", "v1", "Secret"⟩, "b", "default", []⟩

/-- An object-level mutator that fails exactly on objects named "b". -/
def failOnB : OMutator := fun o =>
  if o.name == "b" then .error "boom" else .ok o

/-- Environment rendering the two concrete resources, submissions succeeding. -/
def envTwo : KustEnv :=
  { load := .ok ()
    baseKust := .ok ⟨"", []⟩
    compose := fun _ _ => .ok [resA, resB]
    patch := fun _ => .ok () }

/-- Controller whose only object-level mutator fails on the second object. -/
def ctrlFailB : KustCtrl :=
  { overlay := "base", KMutators := [], OMutators := [failOnB] }

theorem mutator_order_and_no_rollback_witness :
    ctrlFailB.parse envTwo BaseOverlay Ads.empty = .ok ([objA] ++ objB :: []) ∧
    ((ctrlFailB.Apply envTwo BaseOverlay Ads.empty).1 = ctrlFailB ∧
     (ctrlFailB.Apply envTwo BaseOverlay Ads.empty).2.1 =
       [objA].filterMap
         (fun o => (processObj ctrlFailB.OMutators envTwo.patch o).toOption) ∧
     (ctrlFailB.Apply envTwo BaseOverlay Ads.empty).2.2.isSome = true) :=
  ⟨rfl,
   mutator_order_and_no_rollback.2.2 ctrlFailB envTwo BaseOverlay Ads.empty
     [objA] objB [] rfl
     (by intro o ho; simp only [List.mem_singleton] at ho; subst ho; rfl) rfl⟩

/-- Helper for C9: one unmapped rendered resource anywhere in the compositor
output makes the whole decoding loop fail. -/
theorem mapToObjects_error_of_unmapped (ress : List Resource) (r : Resource)
    (hr : r ∈ ress) (hg : mappedGvks.contains r.gvk = false) :
    ∃ e, mapToObjects ress = .error e := by
  have hg' : r.gvk ∉ mappedGvks := by
    intro hmem
    have hc : mappedGvks.contains r.gvk = true := List.elem_iff.mpr hmem
    rw [hc] at hg
    exact Bool.noConfusion hg
  induction ress with
  | nil => cases hr
  | cons a rest ih =>
    rcases List.mem_cons.mp hr with h | h
    · subst h
      exact ⟨"error parsing object: " ++ ("unmapped type " ++ r.gvk.group ++ " "
        ++ r.gvk.version ++ " " ++ r.gvk.kind), by simp [mapToObjects, ToObject, hg']⟩
    · rcases ih h with ⟨e, he⟩
      rcases hto : ToObject a with e' | obj
      · exact ⟨"error parsing object: " ++ e', by simp [mapToObjects, hto]⟩
      · exact ⟨e, by simp [mapToObjects, hto, he]⟩

/-- C9: if composition yields a rendered object whose kind/version pair is not
among the mapped types, decoding fails with an "unmapped type" error and the
whole Apply fails before any object of that parse is submitted, leaving the
controller unchanged. -/
theorem unmapped_type_fails_apply (k : KustCtrl) (env : KustEnv) (ov : String)
    (ads : Ads) (mkust : Option Kustomization) (ress : List Resource)
    (r : Resource)
    (hload : env.load = .ok ())
    (hmut : k.mutateKustomization env ads = .ok mkust)
    (hcomp : env.compose mkust ov = .ok ress)
    (hr : r ∈ ress)
    (hg : mappedGvks.contains r.gvk = false) :
    ToObject r = .error ("unmapped type " ++ r.gvk.group ++ " " ++ r.gvk.version
      ++ " " ++ r.gvk.kind) ∧
    ∃ e, k.parse env ov ads = .error e ∧
      k.Apply env ov ads = (k, [], some ("error parsing kustomize files: " ++ e)) := by
  obtain ⟨e, he⟩ := mapToObjects_error_of_unmapped ress r hr hg
  have hp : k.parse env ov ads = .error e := by
    simp [KustCtrl.parse, hload, hmut, hcomp, he]
  have hg' : r.gvk ∉ mappedGvks := by
    intro hmem
    have hc : mappedGvks.contains r.gvk = true := List.elem_iff.mpr hmem
    rw [hc] at hg
    exact Bool.noConfusion hg
  exact ⟨by simp [ToObject, hg'], e, hp, by simp [KustCtrl.Apply, hp]⟩

/-- An unmapped rendered resource: apps/v1 StatefulSet is not in the switch. -/
def resBad : Resource := ⟨⟨"apps", "v1", "StatefulSet"⟩, "x", "default", []⟩

/-- Environment rendering only the unmapped resource. -/
def envBad : KustEnv :=
  { load := .ok ()
    baseKust := .ok ⟨"", []⟩
    compose := fun _ _ => .ok [resBad]
    patch := fun _ => .ok () }

theorem unmapped_type_fails_apply_witness :
    envBad.load = .ok () ∧
    NewKustCtrl.mutateKustomization envBad Ads.empty = .ok none ∧
    envBad.compose none BaseOverlay = .ok [resBad] ∧
    mappedGvks.contains resBad.gvk = false ∧
    ToObject resBad = .error ("unmapped type " ++ resBad.gvk.group ++ " "
      ++ resBad.gvk.version ++ " " ++ resBad.gvk.kind) :=
  ⟨rfl, rfl, rfl, by decide,
   (unmapped_type_fails_apply NewKustCtrl envBad BaseOverlay Ads.empty none
     [resBad] resBad rfl rfl rfl (by simp) (by decide)).1⟩

/-- C4: an Ads lacking any non-empty subset of the scanning component's
required keys makes its Apply fail during template mutation — before any
object is decoded or submitted — with an error naming every missing key (the
full comma-joined list, not just the first); when all five keys are present
the missing-advertisement check succeeds. -/
theorem clair_missing_ads_fails_apply (ads : Ads) (k : KustCtrl) (env : KustEnv)
    (ov pfx : String) (ec : Except String ClairConfig) (bk : Kustomization)
    (hkm : k.KMutators = [Clair.mutateKustomization pfx ec])
    (hload : env.load = .ok ())
    (hbk : env.baseKust = .ok bk) :
    (clairNeeded.filter (fun i => !(ads.hasKey i)) ≠ [] →
      k.Apply env ov ads =
        (k, [], some ("error parsing kustomize files: " ++
          ("error setting object name prefix: " ++
            ("error mutating kustomization: " ++
              ("unable to build clair config: " ++
                ("missing advertised data: " ++
                  (String.intercalate ","
                      (clairNeeded.filter (fun i => !(ads.hasKey i))) ++
                    " indexes not advertised")))))))) ∧
    (clairNeeded.filter (fun i => !(ads.hasKey i)) = [] →
      ads.Contains clairNeeded = .ok ()) := by
  constructor
  · intro hne
    have hlen : (clairNeeded.filter (fun i => !(ads.hasKey i))).length > 0 := by
      cases hfe : clairNeeded.filter (fun i => !(ads.hasKey i)) with
      | nil => exact absurd hfe hne
      | cons a l => simp
    have hcont : ads.Contains clairNeeded = .error (String.intercalate ","
        (clairNeeded.filter (fun i => !(ads.hasKey i))) ++ " indexes not advertised") := by
      simp only [Ads.Contains]
      rw [if_pos hlen]
    have hbc : Clair.buildClairConfig ec ads = .error ("missing advertised data: "
        ++ (String.intercalate "," (clairNeeded.filter (fun i => !(ads.hasKey i)))
          ++ " indexes not advertised")) := by
      simp only [Clair.buildClairConfig, hcont]
    have hmutd : Clair.mutateKustomization pfx ec bk ads =
        .error ("unable to build clair config: " ++ ("missing advertised data: "
          ++ (String.intercalate "," (clairNeeded.filter (fun i => !(ads.hasKey i)))
            ++ " indexes not advertised"))) := by
      simp only [Clair.mutateKustomization, hbc]
    have hrun : runKMutators k.KMutators bk ads =
        .error ("error mutating kustomization: " ++ ("unable to build clair config: "
          ++ ("missing advertised data: "
            ++ (String.intercalate "," (clairNeeded.filter (fun i => !(ads.hasKey i)))
              ++ " indexes not advertised")))) := by
      rw [hkm]
      simp only [runKMutators, hmutd]
    have hmk : k.mutateKustomization env ads =
        .error ("error mutating kustomization: " ++ ("unable to build clair config: "
          ++ ("missing advertised data: "
            ++ (String.intercalate "," (clairNeeded.filter (fun i => !(ads.hasKey i)))
              ++ " indexes not advertised")))) := by
      simp only [KustCtrl.mutateKustomization, hkm, List.isEmpty_cons, hbk]
      rw [← hkm, hrun]
      simp
    have hp : k.parse env ov ads =
        .error ("error setting object name prefix: " ++
          ("error mutating kustomization: " ++ ("unable to build clair config: "
            ++ ("missing advertised data: "
              ++ (String.intercalate "," (clairNeeded.filter (fun i => !(ads.hasKey i)))
                ++ " indexes not advertised"))))) := by
      simp only [KustCtrl.parse, hload, hmk]
    simp only [KustCtrl.Apply, hp]
  · intro hf
    simp [Ads.Contains, hf]

/-- Controller registering only the clair template mutator, as Clair's New
does. -/
def clairCtrl : KustCtrl :=
  { overlay := ""
    KMutators := [Clair.mutateKustomization "clair" (.ok ⟨"", "", ""⟩)]
    OMutators := [] }

/-- An Ads advertising only dbhost and dbname, missing the other three keys. -/
def adsMissing : Ads := (Ads.empty.Put "dbhost" "h").Put "dbname" "n"

theorem clair_missing_ads_fails_apply_witness :
    clairNeeded.filter (fun i => !(adsMissing.hasKey i)) =
      ["dbport", "dbrootuser", "dbrootpass"] ∧
    clairCtrl.Apply envOk BaseOverlay adsMissing =
      (clairCtrl, [], some ("error parsing kustomize files: " ++
        ("error setting object name prefix: " ++
          ("error mutating kustomization: " ++
            ("unable to build clair config: " ++
              ("missing advertised data: " ++
                (String.intercalate ","
                    (clairNeeded.filter (fun i => !(adsMissing.hasKey i))) ++
                  " indexes not advertised"))))))) :=
  ⟨by decide,
   (clair_missing_ads_fails_apply adsMissing clairCtrl envOk BaseOverlay "clair"
     (.ok ⟨"", "", ""⟩) ⟨"", []⟩ rfl rfl rfl).1 (by decide)⟩
